import Mathlib

/-!
Verification of the AppSignals MCP server (`src/appsignals/models.py` and
`src/appsignals/server.py`).

Modelling conventions:
* Timestamps (`datetime`) are integers (seconds since the epoch, UTC);
  `timedelta(hours=h)` is `h * 3600` seconds.
* Pydantic models become structures with `Option` fields; the Pascal-case
  wire form (`alias_generator=to_pascal`, `model_dump(by_alias=True,
  exclude_none=True)`) is an association list of field name to `JVal`.
  Attribute-map values (`Dict[str, Any]`) are modelled as strings.
* Python truthiness is modelled explicitly: `None` and `""` are falsy for
  optional strings, `None` and `[]` are falsy for optional lists.
* Each tool returns the result string together with the list of upstream
  AWS calls it issued, so that claims about calls never being made are
  statable.  A raised exception is a value of `PyExc`; the upstream client
  responses are `Except PyExc` values, and the `try/except` blocks of the
  two tools become the total handler `handleExc`.
-/

set_option maxRecDepth 8000

namespace AppSignals

/-- A JSON-like wire value as exchanged with the AWS API. -/
inductive JVal where
  | str : String → JVal
  | dat : Int → JVal
  | obj : List (String × JVal) → JVal
  | arr : List JVal → JVal

/-- Field lookup in a wire object (first binding wins, as in a Python dict
built from unique keys). -/
def getField (k : String) : List (String × JVal) → Option JVal
  | [] => none
  | (k', v) :: rest => if k' = k then some v else getField k rest

/-- Decode an optional string field: absent is `none`, a string value is
kept, any other shape is a validation failure. -/
def asOptStr : Option JVal → Option (Option String)
  | none => some none
  | some (JVal.str s) => some (some s)
  | _ => none

/-- Decode an optional datetime field. -/
def asOptDat : Option JVal → Option (Option Int)
  | none => some none
  | some (JVal.dat t) => some (some t)
  | _ => none

/-- Serialize an optional string field under `exclude_none`. -/
def optStrField (k : String) : Option String → List (String × JVal)
  | none => []
  | some s => [(k, JVal.str s)]

/-- Serialize an optional datetime field under `exclude_none`. -/
def optDatField (k : String) : Option Int → List (String × JVal)
  | none => []
  | some t => [(k, JVal.dat t)]

/-- `MetricDimension` from models.py: both fields required strings. -/
structure MetricDimension where
  name : String
  value : String
deriving DecidableEq

/-- `KeyAttributes` from models.py: all fields optional strings. -/
structure KeyAttributes where
  type : Option String := none
  resource_type : Option String := none
  name : Option String := none
  identifier : Option String := none
  environment : Option String := none
deriving DecidableEq

/-- `MetricReference` from models.py (`namespace_` models the Python field
`namespace`, which is a reserved word in Lean). -/
structure MetricReference where
  namespace_ : Option String := none
  metric_type : Option String := none
  dimensions : Option (List MetricDimension) := none
  metric_name : Option String := none
  account_id : Option String := none
deriving DecidableEq

/-- `LogGroupReference` from models.py. -/
structure LogGroupReference where
  type : Option String := none
  resource_type : Option String := none
  identifier : Option String := none
deriving DecidableEq

/-- One attribute map (`Dict[str, Any]`, values modelled as strings). -/
abbrev AttrMap := List (String × String)

/-- `ServiceSummary` from models.py. -/
structure ServiceSummary where
  key_attributes : Option KeyAttributes := none
  attribute_maps : Option (List AttrMap) := none
  metric_references : Option (List MetricReference) := none
deriving DecidableEq

/-- `ServiceDetail` from models.py. -/
structure ServiceDetail where
  key_attributes : Option KeyAttributes := none
  attribute_maps : Option (List AttrMap) := none
  metric_references : Option (List MetricReference) := none
  log_group_references : Option (List LogGroupReference) := none
deriving DecidableEq

/-- `ListServicesResponse` from models.py. -/
structure ListServicesResponse where
  start_time : Option Int := none
  end_time : Option Int := none
  service_summaries : Option (List ServiceSummary) := none
  next_token : Option String := none
deriving DecidableEq

/-- `GetServiceResponse` from models.py. -/
structure GetServiceResponse where
  service : Option ServiceDetail := none
  start_time : Option Int := none
  end_time : Option Int := none
  log_group_references : Option (List LogGroupReference) := none
deriving DecidableEq

/-- Wire form of `MetricDimension` (`model_dump(by_alias=True)`). -/
def serializeMetricDimension (d : MetricDimension) : List (String × JVal) :=
  [("Name", JVal.str d.name), ("Value", JVal.str d.value)]

/-- Construct a `MetricDimension` from a Pascal-case payload. -/
def parseMetricDimension (fields : List (String × JVal)) : Option MetricDimension :=
  match getField "Name" fields, getField "Value" fields with
  | some (JVal.str n), some (JVal.str v) => some ⟨n, v⟩
  | _, _ => none

/-- Wire form of `KeyAttributes` under `exclude_none`, in field order. -/
def serializeKeyAttributes (ka : KeyAttributes) : List (String × JVal) :=
  optStrField "Type" ka.type ++ optStrField "ResourceType" ka.resource_type ++
  optStrField "Name" ka.name ++ optStrField "Identifier" ka.identifier ++
  optStrField "Environment" ka.environment

/-- Construct a `KeyAttributes` from a Pascal-case payload. -/
def parseKeyAttributes (fields : List (String × JVal)) : Option KeyAttributes := do
  let t ← asOptStr (getField "Type" fields)
  let rt ← asOptStr (getField "ResourceType" fields)
  let n ← asOptStr (getField "Name" fields)
  let i ← asOptStr (getField "Identifier" fields)
  let e ← asOptStr (getField "Environment" fields)
  pure ⟨t, rt, n, i, e⟩

/-- Wire form of `LogGroupReference` under `exclude_none`. -/
def serializeLogGroupReference (l : LogGroupReference) : List (String × JVal) :=
  optStrField "Type" l.type ++ optStrField "ResourceType" l.resource_type ++
  optStrField "Identifier" l.identifier

/-- Construct a `LogGroupReference` from a Pascal-case payload. -/
def parseLogGroupReference (fields : List (String × JVal)) : Option LogGroupReference := do
  let t ← asOptStr (getField "Type" fields)
  let rt ← asOptStr (getField "ResourceType" fields)
  let i ← asOptStr (getField "Identifier" fields)
  pure ⟨t, rt, i⟩

/-- Parse every element of a wire array. -/
def parseAll (f : JVal → Option α) : List JVal → Option (List α)
  | [] => some []
  | v :: rest => do
      let a ← f v
      let as ← parseAll f rest
      pure (a :: as)

/-- Dimensions list as a wire value. -/
def serializeDimensions (dims : List MetricDimension) : JVal :=
  JVal.arr (dims.map fun d => JVal.obj (serializeMetricDimension d))

/-- Parse one wire value as a `MetricDimension` object. -/
def parseDimVal : JVal → Option MetricDimension
  | JVal.obj fields => parseMetricDimension fields
  | _ => none

/-- Decode an optional list-of-dimensions field. -/
def asOptDims : Option JVal → Option (Option (List MetricDimension))
  | none => some none
  | some (JVal.arr l) => do
      let ds ← parseAll parseDimVal l
      pure (some ds)
  | _ => none

/-- Wire form of `MetricReference` under `exclude_none`, in field order. -/
def serializeMetricReference (m : MetricReference) : List (String × JVal) :=
  optStrField "Namespace" m.namespace_ ++ optStrField "MetricType" m.metric_type ++
  (match m.dimensions with
   | none => []
   | some dims => [("Dimensions", serializeDimensions dims)]) ++
  optStrField "MetricName" m.metric_name ++ optStrField "AccountId" m.account_id

/-- Construct a `MetricReference` from a Pascal-case payload. -/
def parseMetricReference (fields : List (String × JVal)) : Option MetricReference := do
  let ns ← asOptStr (getField "Namespace" fields)
  let mt ← asOptStr (getField "MetricType" fields)
  let ds ← asOptDims (getField "Dimensions" fields)
  let mn ← asOptStr (getField "MetricName" fields)
  let ai ← asOptStr (getField "AccountId" fields)
  pure ⟨ns, mt, ds, mn, ai⟩

/-- One attribute map as a wire object (values are strings). -/
def serializeAttrMap (m : AttrMap) : JVal :=
  JVal.obj (m.map fun kv => (kv.1, JVal.str kv.2))

/-- Parse one wire object field back into an attribute-map entry. -/
def parseAttrEntry : String × JVal → Option (String × String)
  | (k, JVal.str v) => some (k, v)
  | _ => none

/-- Parse a list of wire object fields into an attribute map. -/
def parseAttrEntries : List (String × JVal) → Option AttrMap
  | [] => some []
  | kv :: rest => do
      let e ← parseAttrEntry kv
      let es ← parseAttrEntries rest
      pure (e :: es)

/-- Parse one wire value as an attribute map. -/
def parseAttrMapVal : JVal → Option AttrMap
  | JVal.obj fields => parseAttrEntries fields
  | _ => none

/-- Decode an optional list-of-attribute-maps field. -/
def asOptAttrMaps : Option JVal → Option (Option (List AttrMap))
  | none => some none
  | some (JVal.arr l) => do
      let ms ← parseAll parseAttrMapVal l
      pure (some ms)
  | _ => none

/-- Decode an optional nested `KeyAttributes` field. -/
def asOptKeyAttributes : Option JVal → Option (Option KeyAttributes)
  | none => some none
  | some (JVal.obj fields) => do
      let ka ← parseKeyAttributes fields
      pure (some ka)
  | _ => none

/-- Parse one wire value as a `MetricReference` object. -/
def parseMetricRefVal : JVal → Option MetricReference
  | JVal.obj fields => parseMetricReference fields
  | _ => none

/-- Decode an optional list-of-metric-references field. -/
def asOptMetricRefs : Option JVal → Option (Option (List MetricReference))
  | none => some none
  | some (JVal.arr l) => do
      let ms ← parseAll parseMetricRefVal l
      pure (some ms)
  | _ => none

/-- Parse one wire value as a `LogGroupReference` object. -/
def parseLogRefVal : JVal → Option LogGroupReference
  | JVal.obj fields => parseLogGroupReference fields
  | _ => none

/-- Decode an optional list-of-log-group-references field. -/
def asOptLogRefs : Option JVal → Option (Option (List LogGroupReference))
  | none => some none
  | some (JVal.arr l) => do
      let ms ← parseAll parseLogRefVal l
      pure (some ms)
  | _ => none

/-- Optional nested list field, serialized under `exclude_none`. -/
def optListField (k : String) (f : α → JVal) : Option (List α) → List (String × JVal)
  | none => []
  | some xs => [(k, JVal.arr (xs.map f))]

/-- Wire form of `ServiceSummary` under `exclude_none`, in field order. -/
def serializeServiceSummary (s : ServiceSummary) : List (String × JVal) :=
  (match s.key_attributes with
   | none => []
   | some ka => [("KeyAttributes", JVal.obj (serializeKeyAttributes ka))]) ++
  optListField "AttributeMaps" serializeAttrMap s.attribute_maps ++
  optListField "MetricReferences" (fun m => JVal.obj (serializeMetricReference m))
    s.metric_references

/-- Construct a `ServiceSummary` from a Pascal-case payload. -/
def parseServiceSummary (fields : List (String × JVal)) : Option ServiceSummary := do
  let ka ← asOptKeyAttributes (getField "KeyAttributes" fields)
  let am ← asOptAttrMaps (getField "AttributeMaps" fields)
  let mr ← asOptMetricRefs (getField "MetricReferences" fields)
  pure ⟨ka, am, mr⟩

/-- Wire form of `ServiceDetail` under `exclude_none`, in field order. -/
def serializeServiceDetail (s : ServiceDetail) : List (String × JVal) :=
  (match s.key_attributes with
   | none => []
   | some ka => [("KeyAttributes", JVal.obj (serializeKeyAttributes ka))]) ++
  optListField "AttributeMaps" serializeAttrMap s.attribute_maps ++
  optListField "MetricReferences" (fun m => JVal.obj (serializeMetricReference m))
    s.metric_references ++
  optListField "LogGroupReferences" (fun l => JVal.obj (serializeLogGroupReference l))
    s.log_group_references

/-- Construct a `ServiceDetail` from a Pascal-case payload. -/
def parseServiceDetail (fields : List (String × JVal)) : Option ServiceDetail := do
  let ka ← asOptKeyAttributes (getField "KeyAttributes" fields)
  let am ← asOptAttrMaps (getField "AttributeMaps" fields)
  let mr ← asOptMetricRefs (getField "MetricReferences" fields)
  let lr ← asOptLogRefs (getField "LogGroupReferences" fields)
  pure ⟨ka, am, mr, lr⟩

/-- Parse one wire value as a `ServiceSummary` object. -/
def parseSummaryVal : JVal → Option ServiceSummary
  | JVal.obj fields => parseServiceSummary fields
  | _ => none

/-- Decode an optional list-of-service-summaries field. -/
def asOptSummaries : Option JVal → Option (Option (List ServiceSummary))
  | none => some none
  | some (JVal.arr l) => do
      let ss ← parseAll parseSummaryVal l
      pure (some ss)
  | _ => none

/-- Wire form of `ListServicesResponse` under `exclude_none`, in field order. -/
def serializeListServicesResponse (r : ListServicesResponse) : List (String × JVal) :=
  optDatField "StartTime" r.start_time ++ optDatField "EndTime" r.end_time ++
  optListField "ServiceSummaries" (fun s => JVal.obj (serializeServiceSummary s))
    r.service_summaries ++
  optStrField "NextToken" r.next_token

/-- Construct a `ListServicesResponse` from a Pascal-case payload. -/
def parseListServicesResponse (fields : List (String × JVal)) :
    Option ListServicesResponse := do
  let st ← asOptDat (getField "StartTime" fields)
  let et ← asOptDat (getField "EndTime" fields)
  let ss ← asOptSummaries (getField "ServiceSummaries" fields)
  let nt ← asOptStr (getField "NextToken" fields)
  pure ⟨st, et, ss, nt⟩

/-- Decode an optional nested `ServiceDetail` field. -/
def asOptServiceDetail : Option JVal → Option (Option ServiceDetail)
  | none => some none
  | some (JVal.obj fields) => do
      let sd ← parseServiceDetail fields
      pure (some sd)
  | _ => none

/-- Wire form of `GetServiceResponse` under `exclude_none`, in field order. -/
def serializeGetServiceResponse (r : GetServiceResponse) : List (String × JVal) :=
  (match r.service with
   | none => []
   | some sd => [("Service", JVal.obj (serializeServiceDetail sd))]) ++
  optDatField "StartTime" r.start_time ++ optDatField "EndTime" r.end_time ++
  optListField "LogGroupReferences" (fun l => JVal.obj (serializeLogGroupReference l))
    r.log_group_references

/-- Construct a `GetServiceResponse` from a Pascal-case payload. -/
def parseGetServiceResponse (fields : List (String × JVal)) :
    Option GetServiceResponse := do
  let sd ← asOptServiceDetail (getField "Service" fields)
  let st ← asOptDat (getField "StartTime" fields)
  let et ← asOptDat (getField "EndTime" fields)
  let lr ← asOptLogRefs (getField "LogGroupReferences" fields)
  pure ⟨sd, st, et, lr⟩

/-- Python `x or default` for an optional string (`None` and `""` are falsy). -/
def pyOr (o : Option String) (d : String) : String :=
  match o with
  | some s => if s = "" then d else s
  | none => d

/-- Python truthiness of an optional string. -/
def strTruthy : Option String → Bool
  | none => false
  | some s => decide (s ≠ "")

/-- Python truthiness of an optional list (`None` and `[]` are falsy). -/
def listTruthy : Option (List α) → Bool
  | none => false
  | some l => !l.isEmpty

/-- The exceptions observable at the tools' `try/except` boundary:
pydantic `ValidationError`, botocore `ClientError` (with the optional
`Error.Code` and `Error.Message` of its response), or any other exception. -/
inductive PyExc where
  | validationError (msg : String)
  | clientError (code : Option String) (msg : Option String)
  | otherError (msg : String)

/-- The `except` clauses shared by both tools (server.py lines 120-131 and
260-271): each exception category becomes a prefixed plain string. -/
def handleExc : PyExc → String
  | PyExc.validationError m => "Invalid parameters: " ++ m
  | PyExc.clientError _ m => "AWS Error: " ++ m.getD "Unknown error"
  | PyExc.otherError m => "Error: " ++ m

/-- One upstream AWS Application Signals call, with the arguments the
server passes on the wire. -/
inductive UpstreamCall where
  | listServices (start_time end_time max_results : Int)
  | getService (start_time end_time : Int) (key_attributes : List (String × JVal))

/-- `ListServicesParams` from models.py. -/
structure ListServicesParams where
  start_time : Int
  end_time : Int
  max_results : Int := 50
  next_token : Option String := none
  include_linked_accounts : Bool := false
  aws_account_id : Option String := none
deriving DecidableEq

/-- `GetServiceParams` from models.py. -/
structure GetServiceParams where
  service_name : String
  hours_back : Int := 24
deriving DecidableEq

/-- Pydantic validation of `ListServicesParams`: the only constrained
field is `max_results` (`ge=1, le=500`); the error text is pydantic's
constraint message for the violated bound. -/
def validateListServicesParams (start_time end_time max_results : Int) :
    Except String ListServicesParams :=
  if max_results < 1 then
    Except.error "Input should be greater than or equal to 1"
  else if max_results > 500 then
    Except.error "Input should be less than or equal to 500"
  else
    Except.ok { start_time := start_time, end_time := end_time,
                max_results := max_results }

/-- Pydantic validation of `GetServiceParams`: `service_name` is any
string (no length constraint is declared), `hours_back` has `ge=1, le=168`. -/
def validateGetServiceParams (service_name : String) (hours_back : Int) :
    Except String GetServiceParams :=
  if hours_back < 1 then
    Except.error "Input should be greater than or equal to 1"
  else if hours_back > 168 then
    Except.error "Input should be less than or equal to 168"
  else
    Except.ok { service_name := service_name, hours_back := hours_back }

/-- One service block of the list report (server.py lines 84-112),
including the blank-line separator. -/
def renderSummary (service : ServiceSummary) : String :=
  (match service.key_attributes with
   | some ka =>
     "Service: " ++ pyOr ka.name "Unknown" ++ "\n" ++
     "   Type: " ++ pyOr ka.type "Unknown" ++ "\n" ++
     (match ka.environment with
      | some env => if env = "" then "" else "  Environment: " ++ env ++ "\n"
      | none => "") ++
     (match ka.resource_type with
      | some rt => if rt = "" then "" else "  Resource Type: " ++ rt ++ "\n"
      | none => "") ++
     (if listTruthy service.attribute_maps then
        "  Additional Attributes:\n" ++
        String.join ((service.attribute_maps.getD []).map fun m =>
          String.join (m.map fun kv => "    " ++ kv.1 ++ ": " ++ kv.2 ++ "\n"))
      else "") ++
     (if listTruthy service.metric_references then
        "  Metrics: " ++ toString (service.metric_references.getD []).length ++
        " configured\n"
      else "")
   | none => "Service: Unknown (no attributes)\n") ++ "\n"

/-- The truncated continuation-token notice (server.py lines 114-116). -/
def tokenNotice (next_token : Option String) : String :=
  match next_token with
  | some tok =>
    if tok = "" then ""
    else "Note: More services available (NextToken: " ++ tok.take 20 ++ " ...)\n"
  | none => ""

/-- The list report for a response with at least one summary
(server.py lines 79-118). -/
def renderList (response : ListServicesResponse) : String :=
  let summaries := response.service_summaries.getD []
  "Application Signals Services (" ++ toString summaries.length ++ " total):\n\n" ++
  String.join (summaries.map renderSummary) ++ tokenNotice response.next_token

/-- The `list_monitored_services` tool (server.py lines 51-131): given the
upstream response (or the exception the client raised), the current time
and the raw inputs, return the result string and the upstream calls made. -/
def list_monitored_services (resp : Except PyExc ListServicesResponse)
    (now : Int) (hours_back : Int) (max_results : Int) :
    String × List UpstreamCall :=
  let end_time := now
  let start_time := end_time - hours_back * 3600
  match validateListServicesParams start_time end_time max_results with
  | Except.error msg => (handleExc (PyExc.validationError msg), [])
  | Except.ok params =>
    let call := UpstreamCall.listServices params.start_time params.end_time
      params.max_results
    match resp with
    | Except.error e => (handleExc e, [call])
    | Except.ok response =>
      if listTruthy response.service_summaries then
        (renderList response, [call])
      else
        ("No services found in Application Signals.", [call])

/-- The match predicate of the lookup loop (server.py line 181): key
attributes present and their `name` equal to the requested name. -/
def matchesName (service_name : String) (s : ServiceSummary) : Bool :=
  match s.key_attributes with
  | some ka => ka.name == some service_name
  | none => false

/-- The lookup loop (server.py lines 179-183): first matching summary. -/
def findTarget (summaries : List ServiceSummary) (service_name : String) :
    Option ServiceSummary :=
  summaries.find? (matchesName service_name)

/-- One `  Label: value` line, omitted when the field is falsy. -/
def optLine (label : String) : Option String → String
  | some v => if v = "" then "" else label ++ v ++ "\n"
  | none => ""

/-- The `Key Attributes:` block of the detail report (lines 211-223). -/
def kaSection (sd : ServiceDetail) : String :=
  match sd.key_attributes with
  | none => ""
  | some ka =>
    "Key Attributes:\n" ++
    optLine "  Name: " ka.name ++
    optLine "  Type: " ka.type ++
    optLine "  Environment: " ka.environment ++
    optLine "  Resource Type: " ka.resource_type ++
    optLine "  Identifier: " ka.identifier

/-- The `Additional Attributes:` block of the detail report (lines 225-230). -/
def amSection (sd : ServiceDetail) : String :=
  if listTruthy sd.attribute_maps then
    "Additional Attributes:\n" ++
    String.join ((sd.attribute_maps.getD []).map fun m =>
      String.join (m.map fun kv => "  " ++ kv.1 ++ ": " ++ kv.2 ++ "\n")) ++ "\n"
  else ""

/-- One metric-reference bullet of the detail report (lines 236-248). -/
def renderMetricEntry (metric : MetricReference) : String :=
  "  • " ++ pyOr metric.namespace_ "Unknown" ++ "/" ++
  pyOr metric.metric_name "Unknown" ++ "\n" ++
  (match metric.metric_type with
   | some t => if t = "" then "" else "    Type: " ++ t ++ "\n"
   | none => "") ++
  (if listTruthy metric.dimensions then
     "    Dimensions: " ++
     String.intercalate ", "
       ((metric.dimensions.getD []).map fun d => d.name ++ "=" ++ d.value) ++ "\n"
   else "") ++ "\n"

/-- The `Metric References` section of the detail report (lines 232-248). -/
def metricsSection (sd : ServiceDetail) : String :=
  if listTruthy sd.metric_references then
    "Metric References (" ++ toString (sd.metric_references.getD []).length ++
    " total):\n" ++
    String.join ((sd.metric_references.getD []).map renderMetricEntry)
  else ""

/-- The `Log Group References` section of the detail report (lines 250-255). -/
def logsSection (sd : ServiceDetail) : String :=
  if listTruthy sd.log_group_references then
    "Log Group References (" ++ toString (sd.log_group_references.getD []).length ++
    " total):\n" ++
    String.join ((sd.log_group_references.getD []).map fun l =>
      "  • " ++ pyOr l.identifier "Unknown" ++ "\n") ++ "\n"
  else ""

/-- The full detail report (server.py lines 209-255). -/
def renderDetail (service_name : String) (sd : ServiceDetail) : String :=
  "Service Details: " ++ service_name ++ "\n\n" ++
  kaSection sd ++ amSection sd ++ metricsSection sd ++ logsSection sd

/-- The `get_service_detail` tool (server.py lines 154-271): given the two
upstream responses (each possibly an exception), the current time and the
raw inputs, return the result string and the upstream calls made, in order. -/
def get_service_detail (listResp : Except PyExc ListServicesResponse)
    (getResp : Except PyExc GetServiceResponse)
    (now : Int) (service_name : String) (hours_back : Int) :
    String × List UpstreamCall :=
  match validateGetServiceParams service_name hours_back with
  | Except.error msg => (handleExc (PyExc.validationError msg), [])
  | Except.ok params =>
    let end_time := now
    let start_time := end_time - params.hours_back * 3600
    let listCall := UpstreamCall.listServices start_time end_time 100
    match listResp with
    | Except.error e => (handleExc e, [listCall])
    | Except.ok services =>
      match findTarget (services.service_summaries.getD []) service_name with
      | none =>
        ("Service \x27" ++ service_name ++ "\x27 not found in Application Signals.",
         [listCall])
      | some target =>
        match target.key_attributes with
        | none =>
          ("Service \x27" ++ service_name ++ "\x27 not found in Application Signals.",
           [listCall])
        | some ka =>
          let getCall := UpstreamCall.getService start_time end_time
            (serializeKeyAttributes ka)
          match getResp with
          | Except.error e => (handleExc e, [listCall, getCall])
          | Except.ok service_response =>
            match service_response.service with
            | none =>
              ("No service details found for \x27" ++ service_name ++ "\x27.",
               [listCall, getCall])
            | some sd => (renderDetail service_name sd, [listCall, getCall])

theorem roundtrip_metricDimension (d : MetricDimension) :
    parseMetricDimension (serializeMetricDimension d) = some d := rfl

theorem roundtrip_keyAttributes (ka : KeyAttributes) :
    parseKeyAttributes (serializeKeyAttributes ka) = some ka := by
  obtain ⟨t, rt, n, i, e⟩ := ka
  cases t <;> cases rt <;> cases n <;> cases i <;> cases e <;> rfl

theorem roundtrip_logGroupReference (l : LogGroupReference) :
    parseLogGroupReference (serializeLogGroupReference l) = some l := by
  obtain ⟨t, rt, i⟩ := l
  cases t <;> cases rt <;> cases i <;> rfl

theorem parseAll_dims (dims : List MetricDimension) :
    parseAll parseDimVal (dims.map fun d => JVal.obj (serializeMetricDimension d))
      = some dims := by
  induction dims with
  | nil => rfl
  | cons d rest ih => simp [parseAll, parseDimVal, roundtrip_metricDimension, ih]

theorem asOptDims_serialize (dims : List MetricDimension) :
    asOptDims (some (JVal.arr (dims.map fun d =>
      JVal.obj (serializeMetricDimension d)))) = some (some dims) := by
  simp [asOptDims, parseAll_dims]

theorem roundtrip_metricReference (m : MetricReference) :
    parseMetricReference (serializeMetricReference m) = some m := by
  obtain ⟨ns, mt, ds, mn, ai⟩ := m
  cases ds with
  | none => cases ns <;> cases mt <;> cases mn <;> cases ai <;> rfl
  | some dims =>
    cases ns <;> cases mt <;> cases mn <;> cases ai <;>
      simp [parseMetricReference, serializeMetricReference, optStrField, getField,
        asOptStr, asOptDims_serialize, serializeDimensions, parseAll_dims]

theorem parseAttrEntries_roundtrip (m : AttrMap) :
    parseAttrEntries (m.map fun kv => (kv.1, JVal.str kv.2)) = some m := by
  induction m with
  | nil => rfl
  | cons kv rest ih => simp [parseAttrEntries, parseAttrEntry, ih]

theorem parseAll_attrMaps (ms : List AttrMap) :
    parseAll parseAttrMapVal (ms.map serializeAttrMap) = some ms := by
  induction ms with
  | nil => rfl
  | cons m rest ih =>
    simp [parseAll, parseAttrMapVal, serializeAttrMap, parseAttrEntries_roundtrip, ih]

theorem asOptAttrMaps_serialize (ms : List AttrMap) :
    asOptAttrMaps (some (JVal.arr (ms.map serializeAttrMap))) = some (some ms) := by
  simp [asOptAttrMaps, parseAll_attrMaps]

theorem parseAll_metricRefs (ms : List MetricReference) :
    parseAll parseMetricRefVal
      (ms.map fun m => JVal.obj (serializeMetricReference m)) = some ms := by
  induction ms with
  | nil => rfl
  | cons m rest ih =>
    simp [parseAll, parseMetricRefVal, roundtrip_metricReference, ih]

theorem parseAll_logRefs (ls : List LogGroupReference) :
    parseAll parseLogRefVal
      (ls.map fun l => JVal.obj (serializeLogGroupReference l)) = some ls := by
  induction ls with
  | nil => rfl
  | cons l rest ih =>
    simp [parseAll, parseLogRefVal, roundtrip_logGroupReference, ih]

theorem asOptKeyAttributes_serialize (ka : KeyAttributes) :
    asOptKeyAttributes (some (JVal.obj (serializeKeyAttributes ka)))
      = some (some ka) := by
  simp [asOptKeyAttributes, roundtrip_keyAttributes]

theorem asOptMetricRefs_serialize (ms : List MetricReference) :
    asOptMetricRefs (some (JVal.arr (ms.map fun m =>
      JVal.obj (serializeMetricReference m)))) = some (some ms) := by
  simp [asOptMetricRefs, parseAll_metricRefs]

theorem asOptLogRefs_serialize (ls : List LogGroupReference) :
    asOptLogRefs (some (JVal.arr (ls.map fun l =>
      JVal.obj (serializeLogGroupReference l)))) = some (some ls) := by
  simp [asOptLogRefs, parseAll_logRefs]

theorem roundtrip_serviceSummary (s : ServiceSummary) :
    parseServiceSummary (serializeServiceSummary s) = some s := by
  obtain ⟨ka, am, mr⟩ := s
  cases ka <;> cases am <;> cases mr <;>
    simp [parseServiceSummary, serializeServiceSummary, optListField, getField,
      asOptKeyAttributes, asOptAttrMaps, asOptMetricRefs,
      roundtrip_keyAttributes, parseAll_attrMaps, parseAll_metricRefs]

theorem roundtrip_serviceDetail (s : ServiceDetail) :
    parseServiceDetail (serializeServiceDetail s) = some s := by
  obtain ⟨ka, am, mr, lr⟩ := s
  cases ka <;> cases am <;> cases mr <;> cases lr <;>
    simp [parseServiceDetail, serializeServiceDetail, optListField, getField,
      asOptKeyAttributes, asOptAttrMaps, asOptMetricRefs, asOptLogRefs,
      roundtrip_keyAttributes, parseAll_attrMaps, parseAll_metricRefs,
      parseAll_logRefs]

theorem parseAll_summaries (ss : List ServiceSummary) :
    parseAll parseSummaryVal
      (ss.map fun s => JVal.obj (serializeServiceSummary s)) = some ss := by
  induction ss with
  | nil => rfl
  | cons s rest ih =>
    simp [parseAll, parseSummaryVal, roundtrip_serviceSummary, ih]

theorem roundtrip_listServicesResponse (r : ListServicesResponse) :
    parseListServicesResponse (serializeListServicesResponse r) = some r := by
  obtain ⟨st, et, ss, nt⟩ := r
  cases st <;> cases et <;> cases ss <;> cases nt <;>
    simp [parseListServicesResponse, serializeListServicesResponse, optListField,
      optDatField, optStrField, getField, asOptDat, asOptStr, asOptSummaries,
      parseAll_summaries, roundtrip_serviceSummary]

theorem roundtrip_getServiceResponse (r : GetServiceResponse) :
    parseGetServiceResponse (serializeGetServiceResponse r) = some r := by
  obtain ⟨sd, st, et, lr⟩ := r
  cases sd <;> cases st <;> cases et <;> cases lr <;>
    simp [parseGetServiceResponse, serializeGetServiceResponse, optListField,
      optDatField, optStrField, getField, asOptDat, asOptStr, asOptServiceDetail,
      asOptLogRefs, parseAll_logRefs, roundtrip_serviceDetail]

/-- `sub` occurs contiguously inside `s`. -/
abbrev SubstringOf (sub s : String) : Prop := sub.data <:+: s.data

/-- `p` is a leading segment of `s`. -/
abbrev HeadOf (p s : String) : Prop := p.data <+: s.data

/-- `p` is a trailing segment of `s`. -/
abbrev TailOf (p s : String) : Prop := p.data <:+ s.data

theorem headOf_append (p rest : String) : HeadOf p (p ++ rest) := by
  simp [HeadOf, String.data_append]

theorem tailOf_append (a p : String) : TailOf p (a ++ p) := by
  simp [TailOf, String.data_append]

theorem headOf_trans_append (p q rest : String) (h : HeadOf p q) :
    HeadOf p (q ++ rest) := by
  simp only [HeadOf, String.data_append]
  exact h.trans (List.prefix_append q.data rest.data)

theorem substringOf_of_headOf (sub a s : String) (h : HeadOf sub s) :
    SubstringOf sub (a ++ s) := by
  simp only [SubstringOf, String.data_append]
  exact h.isInfix.trans ⟨a.data, [], by simp⟩

/-- `List.find?` returns the first element satisfying the predicate. -/
theorem find_first (p : α → Bool) (pre : List α) (t : α) (post : List α)
    (hpre : ∀ s ∈ pre, p s = false) (ht : p t = true) :
    List.find? p (pre ++ t :: post) = some t := by
  induction pre with
  | nil => simp [List.find?_cons, ht]
  | cons a rest ih =>
    have ha : p a = false := hpre a (by simp)
    simp only [List.cons_append, List.find?_cons, ha]
    exact ih fun s hs => hpre s (by simp [hs])

/-- C4: for every schema record type and every Pascal-case wire payload that
some record serializes to (i.e. any payload whose populated fields carry the
upstream capitalized names with well-formed values), constructing the record
from that payload and re-serializing it yields back exactly the same payload,
so the field-name translation is lossless in both directions for every
populated field.  (`model_dump(by_alias=True, exclude_none=True)` is the wire
form; attribute-map values are modelled as strings.) -/
theorem c4_pascal_roundtrip_lossless :
    (∀ p ka, serializeKeyAttributes ka = p →
      ∃ r, parseKeyAttributes p = some r ∧ serializeKeyAttributes r = p) ∧
    (∀ p d, serializeMetricDimension d = p →
      ∃ r, parseMetricDimension p = some r ∧ serializeMetricDimension r = p) ∧
    (∀ p m, serializeMetricReference m = p →
      ∃ r, parseMetricReference p = some r ∧ serializeMetricReference r = p) ∧
    (∀ p l, serializeLogGroupReference l = p →
      ∃ r, parseLogGroupReference p = some r ∧ serializeLogGroupReference r = p) ∧
    (∀ p s, serializeServiceSummary s = p →
      ∃ r, parseServiceSummary p = some r ∧ serializeServiceSummary r = p) ∧
    (∀ p s, serializeServiceDetail s = p →
      ∃ r, parseServiceDetail p = some r ∧ serializeServiceDetail r = p) ∧
    (∀ p x, serializeListServicesResponse x = p →
      ∃ r, parseListServicesResponse p = some r ∧ serializeListServicesResponse r = p) ∧
    (∀ p x, serializeGetServiceResponse x = p →
      ∃ r, parseGetServiceResponse p = some r ∧ serializeGetServiceResponse r = p) := by
  refine ⟨?_, ?_, ?_, ?_, ?_, ?_, ?_, ?_⟩ <;> intro p x h <;> subst h
  · exact ⟨x, roundtrip_keyAttributes x, rfl⟩
  · exact ⟨x, roundtrip_metricDimension x, rfl⟩
  · exact ⟨x, roundtrip_metricReference x, rfl⟩
  · exact ⟨x, roundtrip_logGroupReference x, rfl⟩
  · exact ⟨x, roundtrip_serviceSummary x, rfl⟩
  · exact ⟨x, roundtrip_serviceDetail x, rfl⟩
  · exact ⟨x, roundtrip_listServicesResponse x, rfl⟩
  · exact ⟨x, roundtrip_getServiceResponse x, rfl⟩

/-- Witness for C4 at a concrete populated payload for each record type. -/
theorem c4_pascal_roundtrip_lossless_witness :
    (∃ r, parseKeyAttributes
        [("Type", JVal.str "Service"), ("Name", JVal.str "checkout-service"),
         ("Environment", JVal.str "production")] = some r ∧
      serializeKeyAttributes r =
        [("Type", JVal.str "Service"), ("Name", JVal.str "checkout-service"),
         ("Environment", JVal.str "production")]) ∧
    (∃ r, parseMetricDimension
        [("Name", JVal.str "Operation"), ("Value", JVal.str "GET")] = some r ∧
      serializeMetricDimension r =
        [("Name", JVal.str "Operation"), ("Value", JVal.str "GET")]) ∧
    (∃ r, parseServiceSummary
        [("KeyAttributes", JVal.obj [("Name", JVal.str "svc")])] = some r ∧
      serializeServiceSummary r =
        [("KeyAttributes", JVal.obj [("Name", JVal.str "svc")])]) := by
  refine ⟨?_, ?_, ?_⟩
  · exact c4_pascal_roundtrip_lossless.1 _
      { type := some "Service", name := some "checkout-service",
        environment := some "production" } rfl
  · exact c4_pascal_roundtrip_lossless.2.1 _ ⟨"Operation", "GET"⟩ rfl
  · exact c4_pascal_roundtrip_lossless.2.2.2.2.1 _
      { key_attributes := some { name := some "svc" } } rfl

/-- C5: whenever the upstream list call returns zero service summaries (an
absent or empty sequence), `list_monitored_services` returns exactly the
sentinel string "No services found in Application Signals." (a success
result, produced before any formatting of summaries). -/
theorem c5_empty_list_sentinel (resp : ListServicesResponse) (now hb mr : Int)
    (hmr1 : 1 ≤ mr) (hmr2 : mr ≤ 500)
    (h : resp.service_summaries = none ∨ resp.service_summaries = some []) :
    (list_monitored_services (Except.ok resp) now hb mr).1
      = "No services found in Application Signals." := by
  have h1 : ¬ mr < 1 := by omega
  have h2 : ¬ mr > 500 := by omega
  rcases h with h | h <;>
    simp [list_monitored_services, validateListServicesParams, h1, h2, h, listTruthy]

/-- Witness for C5 at a concrete empty response. -/
theorem c5_empty_list_sentinel_witness :
    (list_monitored_services (Except.ok { service_summaries := some [] }) 0 24 100).1
      = "No services found in Application Signals." :=
  c5_empty_list_sentinel { service_summaries := some [] } 0 24 100
    (by decide) (by decide) (Or.inr rfl)

/-- C9: every `maxResults` in [1, 500] passes `ListServicesParams`
validation, and every value outside the range fails; for the inputs 0 and
501 the tool returns an "Invalid parameters: " string naming the violated
bound and issues no upstream call at all. -/
theorem c9_max_results_bounds :
    (∀ st et m : Int, (1 ≤ m ∧ m ≤ 500) ↔
      (∃ p, validateListServicesParams st et m = Except.ok p)) ∧
    (∀ resp now hb, list_monitored_services resp now hb 0
      = ("Invalid parameters: Input should be greater than or equal to 1", [])) ∧
    (∀ resp now hb, list_monitored_services resp now hb 501
      = ("Invalid parameters: Input should be less than or equal to 500", [])) := by
  refine ⟨?_, ?_, ?_⟩
  · intro st et m
    constructor
    · rintro ⟨hm1, hm2⟩
      have h1 : ¬ m < 1 := by omega
      have h2 : ¬ m > 500 := by omega
      exact ⟨{ start_time := st, end_time := et, max_results := m },
        by simp [validateListServicesParams, h1, h2]⟩
    · rintro ⟨p, hp⟩
      by_contra hcon
      have : m < 1 ∨ m > 500 := by omega
      rcases this with h | h
      · simp [validateListServicesParams, h] at hp
      · have h1 : ¬ m < 1 := by omega
        simp [validateListServicesParams, h1, h] at hp
  · intro resp now hb
    rfl
  · intro resp now hb
    rfl

/-- C10: `list_monitored_services` applies no range check to `hoursBack`:
for every integer value (0, negative and values above 168 included) the
validation succeeds and the single upstream list call is issued over the
window `startTime = endTime − hoursBack` hours (here in seconds), so for
every `hoursBack ≤ 0` the issued window has `startTime ≥ endTime`; by
contrast `GetServiceParams` accepts `hours_back` exactly on [1, 168]. -/
theorem c10_list_hours_back_unchecked :
    (∀ resp now h, (list_monitored_services resp now h 100).2
        = [UpstreamCall.listServices (now - h * 3600) now 100]) ∧
    (∀ now h : Int, h ≤ 0 → now ≤ now - h * 3600) ∧
    (∀ s h, (∃ p, validateGetServiceParams s h = Except.ok p) ↔
      (1 ≤ h ∧ h ≤ 168)) := by
  refine ⟨?_, ?_, ?_⟩
  · intro resp now h
    cases resp with
    | error e => rfl
    | ok response =>
      by_cases hb : listTruthy response.service_summaries <;>
        simp [list_monitored_services, validateListServicesParams, hb]
  · intro now h hh
    omega
  · intro s h
    constructor
    · rintro ⟨p, hp⟩
      by_contra hcon
      have : h < 1 ∨ h > 168 := by omega
      rcases this with hlt | hgt
      · simp [validateGetServiceParams, hlt] at hp
      · have h1 : ¬ h < 1 := by omega
        simp [validateGetServiceParams, h1, hgt] at hp
    · rintro ⟨hh1, hh2⟩
      have h1 : ¬ h < 1 := by omega
      have h2 : ¬ h > 168 := by omega
      exact ⟨{ service_name := s, hours_back := h },
        by simp [validateGetServiceParams, h1, h2]⟩

/-- Witness for C10 at `hoursBack = -5` (list tool) and `hoursBack = 24`
(detail-tool validation). -/
theorem c10_list_hours_back_unchecked_witness :
    (list_monitored_services (Except.ok {}) 0 (-5) 100).2
      = [UpstreamCall.listServices 18000 0 100] ∧
    (0 : Int) ≤ 0 - (-5) * 3600 ∧
    (∃ p, validateGetServiceParams "svc" 24 = Except.ok p) :=
  ⟨c10_list_hours_back_unchecked.1 (Except.ok {}) 0 (-5),
   c10_list_hours_back_unchecked.2.1 0 (-5) (by decide),
   (c10_list_hours_back_unchecked.2.2 "svc" 24).mpr ⟨by decide, by decide⟩⟩

/-- C2: every failure inside either tool is surfaced as a plain returned
string (both tools are total functions into `String × List UpstreamCall`,
so no exception crosses the boundary): a pydantic validation failure
returns an "Invalid parameters: "-prefixed string; an upstream ClientError
returns "AWS Error: " followed only by the upstream-supplied human-readable
message, for every machine error code; any other exception returns
"Error: " followed by its text.  The conjuncts cover the handler itself and
every failure point of both tools. -/
theorem c2_errors_returned_as_strings :
    (∀ m, handleExc (PyExc.validationError m) = "Invalid parameters: " ++ m) ∧
    (∀ c m, handleExc (PyExc.clientError c (some m)) = "AWS Error: " ++ m) ∧
    (∀ m, handleExc (PyExc.otherError m) = "Error: " ++ m) ∧
    (∀ now hb mr e, 1 ≤ mr → mr ≤ 500 →
      (list_monitored_services (Except.error e) now hb mr).1 = handleExc e) ∧
    (∀ (resp : Except PyExc ListServicesResponse) now hb mr,
      mr < 1 ∨ 500 < mr →
      ∃ msg, list_monitored_services resp now hb mr
        = ("Invalid parameters: " ++ msg, [])) ∧
    (∀ gr now nm hb e, 1 ≤ hb → hb ≤ 168 →
      (get_service_detail (Except.error e) gr now nm hb).1 = handleExc e) ∧
    (∀ (resp : ListServicesResponse) t ka now nm hb e, 1 ≤ hb → hb ≤ 168 →
      findTarget (resp.service_summaries.getD []) nm = some t →
      t.key_attributes = some ka →
      (get_service_detail (Except.ok resp) (Except.error e) now nm hb).1
        = handleExc e) ∧
    (∀ lr gr now nm hb, hb < 1 ∨ 168 < hb →
      ∃ msg, get_service_detail lr gr now nm hb
        = ("Invalid parameters: " ++ msg, [])) := by
  refine ⟨fun m => rfl, fun c m => rfl, fun m => rfl, ?_, ?_, ?_, ?_, ?_⟩
  · intro now hb mr e hm1 hm2
    have h1 : ¬ mr < 1 := by omega
    have h2 : ¬ mr > 500 := by omega
    simp [list_monitored_services, validateListServicesParams, h1, h2]
  · intro resp now hb mr hm
    rcases hm with hlt | hgt
    · exact ⟨"Input should be greater than or equal to 1",
        by simp [list_monitored_services, validateListServicesParams, hlt, handleExc]⟩
    · have h1 : ¬ mr < 1 := by omega
      exact ⟨"Input should be less than or equal to 500",
        by simp [list_monitored_services, validateListServicesParams, h1, hgt, handleExc]⟩
  · intro gr now nm hb e hh1 hh2
    have h1 : ¬ hb < 1 := by omega
    have h2 : ¬ hb > 168 := by omega
    simp [get_service_detail, validateGetServiceParams, h1, h2]
  · intro resp t ka now nm hb e hh1 hh2 hfind hka
    have h1 : ¬ hb < 1 := by omega
    have h2 : ¬ hb > 168 := by omega
    simp [get_service_detail, validateGetServiceParams, h1, h2, hfind, hka]
  · intro lr gr now nm hb hh
    rcases hh with hlt | hgt
    · exact ⟨"Input should be greater than or equal to 1",
        by simp [get_service_detail, validateGetServiceParams, hlt, handleExc]⟩
    · have h1 : ¬ hb < 1 := by omega
      exact ⟨"Input should be less than or equal to 168",
        by simp [get_service_detail, validateGetServiceParams, h1, hgt, handleExc]⟩

/-- Witness for C2 at concrete failures of each category. -/
theorem c2_errors_returned_as_strings_witness :
    (list_monitored_services
        (Except.error (PyExc.clientError (some "Throttling") (some "Rate exceeded")))
        0 24 100).1 = handleExc (PyExc.clientError (some "Throttling") (some "Rate exceeded")) ∧
    (∃ msg, list_monitored_services (Except.ok {}) 0 24 501
      = ("Invalid parameters: " ++ msg, [])) ∧
    (get_service_detail (Except.error (PyExc.otherError "boom")) (Except.ok {})
        0 "svc" 24).1 = handleExc (PyExc.otherError "boom") ∧
    (get_service_detail
        (Except.ok { service_summaries := some [{ key_attributes := some { name := some "svc" } }] })
        (Except.error (PyExc.clientError none (some "Access denied")))
        0 "svc" 24).1 = handleExc (PyExc.clientError none (some "Access denied")) ∧
    (∃ msg, get_service_detail (Except.ok {}) (Except.ok {}) 0 "svc" 200
      = ("Invalid parameters: " ++ msg, [])) :=
  ⟨c2_errors_returned_as_strings.2.2.2.1 0 24 100 _ (by decide) (by decide),
   c2_errors_returned_as_strings.2.2.2.2.1 (Except.ok {}) 0 24 501 (Or.inr (by decide)),
   c2_errors_returned_as_strings.2.2.2.2.2.1 (Except.ok {}) 0 "svc" 24 _
     (by decide) (by decide),
   c2_errors_returned_as_strings.2.2.2.2.2.2.1
     { service_summaries := some [{ key_attributes := some { name := some "svc" } }] }
     { key_attributes := some { name := some "svc" } }
     { name := some "svc" } 0 "svc" 24 _ (by decide) (by decide) rfl rfl,
   c2_errors_returned_as_strings.2.2.2.2.2.2.2 (Except.ok {}) (Except.ok {}) 0 "svc" 200
     (Or.inr (by decide))⟩

/-- C1: for every list-services result, `get_service_detail` scans the
returned summaries in order and selects the first summary whose key
attributes\x27 `name` equals the requested name by exact case-sensitive string
equality; with no match the second upstream call is never issued and the
result is exactly "Service \x27<serviceName>\x27 not found in Application
Signals." (the loop predicate requires key attributes to be present, so a
match always carries them). -/
theorem c1_first_match_lookup (resp : ListServicesResponse)
    (gr : Except PyExc GetServiceResponse) (now : Int) (nm : String) (hb : Int)
    (summaries : List ServiceSummary)
    (h1 : 1 ≤ hb) (h2 : hb ≤ 168)
    (hs : resp.service_summaries = some summaries) :
    ((∀ s ∈ summaries, matchesName nm s = false) →
      get_service_detail (Except.ok resp) gr now nm hb
        = ("Service \x27" ++ nm ++ "\x27 not found in Application Signals.",
           [UpstreamCall.listServices (now - hb * 3600) now 100])) ∧
    (∀ pre t post, summaries = pre ++ t :: post →
      (∀ s ∈ pre, matchesName nm s = false) → matchesName nm t = true →
      ∃ ka, t.key_attributes = some ka ∧ ka.name = some nm ∧
        (get_service_detail (Except.ok resp) gr now nm hb).2
          = [UpstreamCall.listServices (now - hb * 3600) now 100,
             UpstreamCall.getService (now - hb * 3600) now
               (serializeKeyAttributes ka)]) := by
  have hv1 : ¬ hb < 1 := by omega
  have hv2 : ¬ hb > 168 := by omega
  constructor
  · intro hnone
    have hfind : findTarget summaries nm = none := by
      unfold findTarget
      exact List.find?_eq_none.mpr fun s hsmem => by simp [hnone s hsmem]
    simp [get_service_detail, validateGetServiceParams, hv1, hv2, hs, hfind]
  · intro pre t post hsum hpre ht
    have hka : ∃ ka, t.key_attributes = some ka ∧ (ka.name == some nm) = true := by
      unfold matchesName at ht
      cases hk : t.key_attributes with
      | none => rw [hk] at ht; exact absurd ht (by simp)
      | some ka => rw [hk] at ht; exact ⟨ka, rfl, ht⟩
    obtain ⟨ka, hk, hbeq⟩ := hka
    have hname : ka.name = some nm := by
      exact beq_iff_eq.mp hbeq
    refine ⟨ka, hk, hname, ?_⟩
    have hfind : findTarget summaries nm = some t := by
      unfold findTarget
      rw [hsum]
      exact find_first _ pre t post hpre ht
    cases gr with
    | error e =>
      simp [get_service_detail, validateGetServiceParams, hv1, hv2, hs, hfind, hk]
    | ok sr =>
      cases hsrv : sr.service <;>
        simp [get_service_detail, validateGetServiceParams, hv1, hv2, hs, hfind,
          hk, hsrv]

/-- Witness for C1: a no-match lookup and a first-match lookup at concrete
inputs. -/
theorem c1_first_match_lookup_witness :
    (get_service_detail
        (Except.ok { service_summaries := some [{ key_attributes := some { name := some "other" } }] })
        (Except.ok {}) 0 "svc" 24
      = ("Service \x27svc\x27 not found in Application Signals.",
         [UpstreamCall.listServices (-86400) 0 100])) ∧
    (∃ ka, ({ key_attributes := some { name := some "svc", type := some "Service" }} : ServiceSummary).key_attributes = some ka ∧
      ka.name = some "svc" ∧
      (get_service_detail
          (Except.ok { service_summaries := some [{ key_attributes := some { name := some "other" } }, { key_attributes := some { name := some "svc", type := some "Service" } }, { key_attributes := some { name := some "svc" } }] })
          (Except.ok {}) 0 "svc" 24).2
        = [UpstreamCall.listServices (-86400) 0 100,
           UpstreamCall.getService (-86400) 0 (serializeKeyAttributes ka)]) := by
  constructor
  · exact (c1_first_match_lookup _ (Except.ok {}) 0 "svc" 24 _ (by decide) (by decide)
      rfl).1 (by decide)
  · exact (c1_first_match_lookup
      { service_summaries := some [{ key_attributes := some { name := some "other" } }, { key_attributes := some { name := some "svc", type := some "Service" } }, { key_attributes := some { name := some "svc" } }] }
      (Except.ok {}) 0 "svc" 24
      [{ key_attributes := some { name := some "other" } }, { key_attributes := some { name := some "svc", type := some "Service" } }, { key_attributes := some { name := some "svc" } }]
      (by decide) (by decide) rfl).2
      [{ key_attributes := some { name := some "other" } }]
      { key_attributes := some { name := some "svc", type := some "Service" } }
      [{ key_attributes := some { name := some "svc" } }] rfl (by decide) (by decide)

/-- C3 counterexample: the claim says the empty `serviceName` fails
parameter validation before any upstream call; in the code `service_name`
is a plain `str` field with no length constraint, so the empty string
passes validation, the upstream list call IS issued, and the result is the
not-found message rather than an "Invalid parameters: " string. -/
theorem c3_empty_name_counterexample :
    validateGetServiceParams "" 24
      = Except.ok { service_name := "", hours_back := 24 } ∧
    get_service_detail (Except.ok { service_summaries := some [] })
        (Except.ok {}) 0 "" 24
      = ("Service \x27\x27 not found in Application Signals.",
         [UpstreamCall.listServices (-86400) 0 100]) ∧
    ¬ HeadOf "Invalid parameters: "
        (get_service_detail (Except.ok { service_summaries := some [] })
          (Except.ok {}) 0 "" 24).1 :=
  ⟨rfl, rfl, by decide⟩

/-- C3 amended: `serviceName` is a required string but need not be
non-empty: every string, the empty one included, passes `GetServiceParams`
validation (only `hours_back` is bounds-checked to [1, 168]), and for the
empty string the upstream list call is still issued; the validation-failure
path with its "Invalid parameters: " result exists only for out-of-range
`hours_back`. -/
theorem c3_empty_name_amended (s : String) (hb : Int)
    (h1 : 1 ≤ hb) (h2 : hb ≤ 168)
    (lr : Except PyExc ListServicesResponse)
    (gr : Except PyExc GetServiceResponse) (now : Int) :
    validateGetServiceParams s hb
      = Except.ok { service_name := s, hours_back := hb } ∧
    (get_service_detail lr gr now "" hb).2.head?
      = some (UpstreamCall.listServices (now - hb * 3600) now 100) := by
  have hv1 : ¬ hb < 1 := by omega
  have hv2 : ¬ hb > 168 := by omega
  constructor
  · simp [validateGetServiceParams, hv1, hv2]
  · cases lr with
    | error e => simp [get_service_detail, validateGetServiceParams, hv1, hv2]
    | ok services =>
      rcases hfind : findTarget (services.service_summaries.getD []) "" with _ | t
      · simp [get_service_detail, validateGetServiceParams, hv1, hv2, hfind]
      · rcases hk : t.key_attributes with _ | ka
        · simp [get_service_detail, validateGetServiceParams, hv1, hv2, hfind, hk]
        · cases gr with
          | error e =>
            simp [get_service_detail, validateGetServiceParams, hv1, hv2, hfind, hk]
          | ok sr =>
            cases hsrv : sr.service <;>
              simp [get_service_detail, validateGetServiceParams, hv1, hv2, hfind,
                hk, hsrv]

/-- Witness for the amended C3 at concrete inputs. -/
theorem c3_empty_name_amended_witness :
    validateGetServiceParams "" 24
      = Except.ok { service_name := "", hours_back := 24 } ∧
    (get_service_detail (Except.ok { service_summaries := some [] })
        (Except.ok {}) 0 "" 24).2.head?
      = some (UpstreamCall.listServices (-86400) 0 100) :=
  c3_empty_name_amended "" 24 (by decide) (by decide)
    (Except.ok { service_summaries := some [] }) (Except.ok {}) 0

/-- C6 counterexample: the claim quantifies over every list result carrying
a continuation token, but a result with a token and zero service summaries
returns the empty sentinel before the token check, so no truncation notice
is appended (the empty-summaries early return precedes it); likewise an
empty-string token is falsy in Python and produces no notice. -/
theorem c6_token_notice_counterexample :
    (list_monitored_services (Except.ok
        { service_summaries := some [],
          next_token := some "abcdefghijklmnopqrstuvwxyz123456" }) 0 24 100).1
      = "No services found in Application Signals." ∧
    ¬ SubstringOf "Note: More services available (NextToken: "
        (list_monitored_services (Except.ok
          { service_summaries := some [],
            next_token := some "abcdefghijklmnopqrstuvwxyz123456" }) 0 24 100).1 ∧
    ¬ SubstringOf "Note: More services available (NextToken: "
        (list_monitored_services (Except.ok
          { service_summaries := some [{ key_attributes := some { name := some "svc" } }],
            next_token := some "" }) 0 24 100).1 :=
  ⟨rfl, by decide, by decide⟩

/-- C6 amended: for every list result with at least one service summary and
a nonempty continuation token, the report ends with the truncated-token
notice "Note: More services available (NextToken: " followed by exactly the
first 20 characters of the token and the ellipsis marker " ..."; in
particular `"abcdefghijklmnopqrstuvwxyz123456".take 20` is
"abcdefghijklmnopqrst". -/
theorem c6_token_notice_amended (resp : ListServicesResponse) (now hb mr : Int)
    (h1 : 1 ≤ mr) (h2 : mr ≤ 500) (l : List ServiceSummary) (tok : String)
    (hs : resp.service_summaries = some l) (hl : l ≠ [])
    (ht : resp.next_token = some tok) (htok : tok ≠ "") :
    TailOf ("Note: More services available (NextToken: " ++ tok.take 20 ++ " ...)\n")
      (list_monitored_services (Except.ok resp) now hb mr).1 ∧
    ("abcdefghijklmnopqrstuvwxyz123456" : String).take 20
      = "abcdefghijklmnopqrst" := by
  have hv1 : ¬ mr < 1 := by omega
  have hv2 : ¬ mr > 500 := by omega
  have htruthy : listTruthy resp.service_summaries = true := by
    rw [hs]
    cases l with
    | nil => exact absurd rfl hl
    | cons a rest => rfl
  constructor
  · have hres : (list_monitored_services (Except.ok resp) now hb mr).1
        = renderList resp := by
      simp [list_monitored_services, validateListServicesParams, hv1, hv2, htruthy]
    rw [hres]
    unfold renderList
    rw [ht]
    have hnote : tokenNotice (some tok)
        = "Note: More services available (NextToken: " ++ tok.take 20 ++ " ...)\n" := by
      simp [tokenNotice, htok]
    rw [hnote]
    exact tailOf_append _ _
  · rfl

/-- Witness for the amended C6 at a concrete response with one summary and
the 32-character token of the spec example. -/
theorem c6_token_notice_amended_witness :
    TailOf ("Note: More services available (NextToken: " ++ ("abcdefghijklmnopqrstuvwxyz123456" : String).take 20 ++ " ...)\n")
      (list_monitored_services (Except.ok
        { service_summaries := some [{ key_attributes := some { name := some "svc" } }],
          next_token := some "abcdefghijklmnopqrstuvwxyz123456" }) 0 24 100).1 ∧
    ("abcdefghijklmnopqrstuvwxyz123456" : String).take 20
      = "abcdefghijklmnopqrst" :=
  c6_token_notice_amended
    { service_summaries := some [{ key_attributes := some { name := some "svc" } }],
      next_token := some "abcdefghijklmnopqrstuvwxyz123456" } 0 24 100
    (by decide) (by decide) [{ key_attributes := some { name := some "svc" } }]
    "abcdefghijklmnopqrstuvwxyz123456" rfl (by decide) rfl (by decide)

theorem string_data_inj (a b : String) (h : a.data = b.data) : a = b := by
  cases a; cases b; exact congrArg String.mk h

/-- C7: in the list report, for a summary with key attributes present the
name renders literally as "Unknown" when absent and the type as
"Type: Unknown" when absent, the Environment and Resource Type lines are
omitted when those fields are absent; for a summary with no key attributes
the block renders "Service: Unknown (no attributes)" and every other field
of the entry (attribute maps and metric count included) is skipped. -/
theorem c7_list_block_rendering :
    (∀ s : ServiceSummary, s.key_attributes = none →
      renderSummary s = "Service: Unknown (no attributes)\n\n") ∧
    (∀ s ka, s.key_attributes = some ka →
      ka.name = none ∨ ka.name = some "" →
      HeadOf "Service: Unknown\n" (renderSummary s)) ∧
    (∀ s ka, s.key_attributes = some ka → ka.environment = none →
      ka.resource_type = none → s.attribute_maps = none →
      s.metric_references = none →
      renderSummary s = "Service: " ++ pyOr ka.name "Unknown" ++ "\n" ++
        "   Type: " ++ pyOr ka.type "Unknown" ++ "\n" ++ "\n") ∧
    (∀ nm : String, nm ≠ "" →
      renderSummary { key_attributes := some { name := some nm } }
        = "Service: " ++ nm ++ "\n   Type: Unknown\n\n") := by
  refine ⟨?_, ?_, ?_, ?_⟩
  · intro s h
    simp [renderSummary, h]
  · intro s ka hk hname
    have hp : pyOr ka.name "Unknown" = "Unknown" := by
      rcases hname with h | h <;> simp [pyOr, h]
    simp only [renderSummary, hk, hp, HeadOf]
    simp [String.data_append, List.append_assoc]
  · intro s ka hk henv hrt ham hmr
    apply string_data_inj
    simp [renderSummary, hk, henv, hrt, ham, hmr, listTruthy,
      String.data_append, List.append_assoc]
  · intro nm hnm
    apply string_data_inj
    simp [renderSummary, pyOr, hnm, listTruthy,
      String.data_append, List.append_assoc]

/-- Witness for C7 at concrete summaries. -/
theorem c7_list_block_rendering_witness :
    renderSummary { attribute_maps := some [[("k", "v")]], metric_references := some [{}] }
      = "Service: Unknown (no attributes)\n\n" ∧
    HeadOf "Service: Unknown\n"
      (renderSummary { key_attributes := some { type := some "Service" } }) ∧
    renderSummary { key_attributes := some { name := some "svc", type := some "Service" } }
      = "Service: " ++ pyOr (some "svc") "Unknown" ++ "\n" ++
        "   Type: " ++ pyOr (some "Service") "Unknown" ++ "\n" ++ "\n" ∧
    renderSummary { key_attributes := some { name := some "checkout-service" } }
      = "Service: checkout-service\n   Type: Unknown\n\n" :=
  ⟨c7_list_block_rendering.1 _ rfl,
   c7_list_block_rendering.2.1 _ { type := some "Service" } rfl (Or.inl rfl),
   c7_list_block_rendering.2.2.1 _ { name := some "svc", type := some "Service" }
     rfl rfl rfl rfl rfl,
   c7_list_block_rendering.2.2.2 "checkout-service" (by decide)⟩

/-- C8: in the detail report, a nonempty metric-reference sequence of
length N yields the header "Metric References (N total):" followed by one
bullet per entry, a nonempty log-group sequence of length M yields
"Log Group References (M total):" with one bullet per entry, and an empty
or absent sequence omits the corresponding section entirely (no "0 total"
header is ever rendered). -/
theorem c8_detail_sections :
    (∀ sd mrefs, sd.metric_references = some mrefs → mrefs ≠ [] →
      metricsSection sd
        = "Metric References (" ++ toString mrefs.length ++ " total):\n" ++
          String.join (mrefs.map renderMetricEntry)) ∧
    (∀ m : MetricReference, HeadOf "  • " (renderMetricEntry m)) ∧
    (∀ sd, sd.metric_references = none ∨ sd.metric_references = some [] →
      metricsSection sd = "") ∧
    (∀ sd lrefs, sd.log_group_references = some lrefs → lrefs ≠ [] →
      logsSection sd
        = "Log Group References (" ++ toString lrefs.length ++ " total):\n" ++
          String.join (lrefs.map fun l => "  • " ++ pyOr l.identifier "Unknown" ++ "\n") ++
          "\n") ∧
    (∀ sd, sd.log_group_references = none ∨ sd.log_group_references = some [] →
      logsSection sd = "") ∧
    (∀ nm sd mrefs, sd.metric_references = some mrefs → mrefs ≠ [] →
      SubstringOf ("Metric References (" ++ toString mrefs.length ++ " total):\n")
        (renderDetail nm sd)) ∧
    (∀ nm sd lrefs, sd.log_group_references = some lrefs → lrefs ≠ [] →
      SubstringOf ("Log Group References (" ++ toString lrefs.length ++ " total):\n")
        (renderDetail nm sd)) ∧
    (renderDetail "svc" { metric_references := some [], log_group_references := some [] }
      = "Service Details: svc\n\n") := by
  have hA : ∀ sd mrefs, sd.metric_references = some mrefs → mrefs ≠ [] →
      metricsSection sd
        = "Metric References (" ++ toString mrefs.length ++ " total):\n" ++
          String.join (mrefs.map renderMetricEntry) := by
    intro sd mrefs hm hne
    have he : mrefs.isEmpty = false := by
      cases mrefs with
      | nil => exact absurd rfl hne
      | cons a rest => rfl
    simp [metricsSection, listTruthy, hm, he]
  have hL : ∀ sd lrefs, sd.log_group_references = some lrefs → lrefs ≠ [] →
      logsSection sd
        = "Log Group References (" ++ toString lrefs.length ++ " total):\n" ++
          String.join (lrefs.map fun l => "  • " ++ pyOr l.identifier "Unknown" ++ "\n") ++
          "\n" := by
    intro sd lrefs hl hne
    have he : lrefs.isEmpty = false := by
      cases lrefs with
      | nil => exact absurd rfl hne
      | cons a rest => rfl
    simp [logsSection, listTruthy, hl, he]
  refine ⟨hA, ?_, ?_, hL, ?_, ?_, ?_, ?_⟩
  · intro m
    simp only [renderMetricEntry, HeadOf]
    simp [String.data_append, List.append_assoc]
  · intro sd h
    rcases h with h | h <;> simp [metricsSection, listTruthy, h]
  · intro sd h
    rcases h with h | h <;> simp [logsSection, listTruthy, h]
  · intro nm sd mrefs hm hne
    have hms := hA sd mrefs hm hne
    have hrd : (renderDetail nm sd).data
        = ("Service Details: " ++ nm ++ "\n\n" ++ kaSection sd ++ amSection sd).data
          ++ ("Metric References (" ++ toString mrefs.length ++ " total):\n").data
          ++ (String.join (mrefs.map renderMetricEntry) ++ logsSection sd).data := by
      simp [renderDetail, hms, String.data_append, List.append_assoc]
    exact ⟨_, _, hrd.symm⟩
  · intro nm sd lrefs hl hne
    have hls := hL sd lrefs hl hne
    have hrd : (renderDetail nm sd).data
        = ("Service Details: " ++ nm ++ "\n\n" ++ kaSection sd ++ amSection sd
            ++ metricsSection sd).data
          ++ ("Log Group References (" ++ toString lrefs.length ++ " total):\n").data
          ++ (String.join (lrefs.map fun l => "  • " ++ pyOr l.identifier "Unknown" ++ "\n")
              ++ "\n").data := by
      simp [renderDetail, hls, String.data_append, List.append_assoc]
    exact ⟨_, _, hrd.symm⟩
  · rfl

/-- Witness for C8 at a detail with two metric references and one
log-group reference, and with empty sequences. -/
theorem c8_detail_sections_witness :
    (metricsSection { metric_references := some [({} : MetricReference), {}] }
      = "Metric References (" ++ toString ([({} : MetricReference), {}]).length ++ " total):\n" ++
        String.join (([({} : MetricReference), {}]).map renderMetricEntry)) ∧
    metricsSection ({ metric_references := some [] } : ServiceDetail) = "" ∧
    (logsSection { log_group_references := some [({} : LogGroupReference)] }
      = "Log Group References (" ++ toString ([({} : LogGroupReference)]).length ++ " total):\n" ++
        String.join (([({} : LogGroupReference)]).map fun l => "  • " ++ pyOr l.identifier "Unknown" ++ "\n") ++
        "\n") ∧
    logsSection ({ log_group_references := none } : ServiceDetail) = "" ∧
    SubstringOf ("Metric References (" ++ toString ([({} : MetricReference), {}]).length ++ " total):\n")
      (renderDetail "svc" { metric_references := some [({} : MetricReference), {}], log_group_references := some [({} : LogGroupReference)] }) ∧
    SubstringOf ("Log Group References (" ++ toString ([({} : LogGroupReference)]).length ++ " total):\n")
      (renderDetail "svc" { metric_references := some [({} : MetricReference), {}], log_group_references := some [({} : LogGroupReference)] }) :=
  ⟨c8_detail_sections.1 _ [{}, {}] rfl (by decide),
   c8_detail_sections.2.2.1 _ (Or.inr rfl),
   c8_detail_sections.2.2.2.1 _ [{}] rfl (by decide),
   c8_detail_sections.2.2.2.2.1 _ (Or.inl rfl),
   c8_detail_sections.2.2.2.2.2.1 "svc" _ [{}, {}] rfl (by decide),
   c8_detail_sections.2.2.2.2.2.2.1 "svc" _ [{}] rfl (by decide)⟩

/-- Witness for C9 at in-range and out-of-range values. -/
theorem c9_max_results_bounds_witness :
    (∃ p, validateListServicesParams 0 0 250 = Except.ok p) ∧
    list_monitored_services (Except.ok {}) 0 24 0
      = ("Invalid parameters: Input should be greater than or equal to 1", []) ∧
    list_monitored_services (Except.ok {}) 0 24 501
      = ("Invalid parameters: Input should be less than or equal to 500", []) :=
  ⟨(c9_max_results_bounds.1 0 0 250).mp ⟨by decide, by decide⟩,
   c9_max_results_bounds.2.1 (Except.ok {}) 0 24,
   c9_max_results_bounds.2.2 (Except.ok {}) 0 24⟩

end AppSignals
